import Mathlib

/-!
Verification of the blog front-end components `CategoryList` and `BlogHeader`
(`src/pages/blog/CategoryList.tsx`).

The file shallowly embeds the component logic: pure computations become Lean
functions, the React state cells become an explicit state record, the effect
and event handlers become state transitions, and the asynchronous fetch
bodies become event traces parameterised by the outcome of the network call.
-/

namespace CategoryListView

/-- A blog post as stored in the view state (`Blog` from `@/lib/types`):
only the identifier is relevant to the rendering logic modelled here. -/
structure Blog where
  id : String
  title : String
  deriving DecidableEq, Repr

/-- Category metadata (`Category` from `@/lib/types`): display name,
explanation text (empty string when the CMS supplies none) and an optional
cover-image URL. -/
structure Category where
  name : String
  explanation : String
  image : Option String
  deriving DecidableEq, Repr

/-- Number of posts per page: `const blogsPerPage = 10` (CategoryList.tsx
line 40). -/
def blogsPerPage : ℕ := 10

/-- Total page count as computed on fetch completion:
`Math.ceil(data.totalCount / blogsPerPage)` (CategoryList.tsx lines 59-61),
the total count divided by the page size, rounded up. -/
def computeTotalPages (totalCount : ℕ) : ℕ :=
  ⌈(totalCount : ℚ) / ((blogsPerPage : ℕ) : ℚ)⌉.toNat

/-- The state cells of `CategoryList` (lines 32-37): `blogs`, `category`,
`currentPage` (initial value 1) and `totalPages` (initial value 0). -/
structure ListState where
  blogs : List Blog
  category : Option Category
  currentPage : ℕ
  totalPages : ℕ
  deriving DecidableEq, Repr

/-- The `useState` initial values (lines 32-37). -/
def initialState : ListState :=
  { blogs := [], category := none, currentPage := 1, totalPages := 0 }

/-- The page-change handler `handlePageChange` (lines 84-86):
`setCurrentPage(page)`. -/
def handlePageChange (page : ℕ) (s : ListState) : ListState :=
  { s with currentPage := page }

/-- The dependency array of the fetch effect, `[categoryId, setIsLoading,
currentPage]` (line 77).  `setIsLoading` is a stable function prop, so the
value-bearing dependencies are the category identifier and the page. -/
def effectDeps (categoryId : Option String) (s : ListState) :
    Option String × ℕ :=
  (categoryId, s.currentPage)

/-- The posts requests issued by one run of the effect body: `fetchBlogs`
(lines 49-57) returns early when `categoryId` is absent and otherwise issues
exactly one `getBlogsByCategory(categoryId, page, blogsPerPage)` request. -/
def effectFetchRequests (categoryId : Option String) (page : ℕ) : List ℕ :=
  match categoryId with
  | none => []
  | some _ => [page]

/-- The posts requests triggered by a state update: React re-runs the effect
after a render exactly when some entry of its dependency array (line 77)
changed, and a state setter called with the current value causes no
re-render at all.  `sOld` is the state before the update, `sNew` after. -/
def rerenderFetches (categoryId : Option String) (sOld sNew : ListState) :
    List ℕ :=
  if effectDeps categoryId sNew ≠ effectDeps categoryId sOld then
    effectFetchRequests categoryId sNew.currentPage
  else []

/-- Observable events of the fetch effect body (lines 48-77). -/
inductive FetchEvent where
  | loadStart
  | postsRequest (page : ℕ)
  | storeBlogs (contents : List Blog)
  | storeTotal (totalPages : ℕ)
  | loadEnd
  | categoryRequest
  | storeCategory (c : Category)
  deriving DecidableEq, Repr

/-- Outcome of the awaited `getBlogsByCategory` call: the resolved payload
`{contents, totalCount}`, or a rejection. -/
inductive FetchOutcome where
  | success (contents : List Blog) (totalCount : ℕ)
  | failure
  deriving DecidableEq, Repr

/-- Event trace of `fetchBlogs` (lines 49-63): early return without
`categoryId`; otherwise `setIsLoading(true)`, the posts request, and — only
if the awaited call resolves — `setBlogs`, `setTotalPages` and
`setIsLoading(false)`.  A rejection of the `await` aborts the body, so a
failed request produces no further events. -/
def fetchBlogsTrace (categoryId : Option String) (page : ℕ)
    (outcome : FetchOutcome) : List FetchEvent :=
  match categoryId with
  | none => []
  | some _ =>
    match outcome with
    | .success contents totalCount =>
        [.loadStart, .postsRequest page, .storeBlogs contents,
         .storeTotal (computeTotalPages totalCount), .loadEnd]
    | .failure => [.loadStart, .postsRequest page]

/-- Outcome of the awaited `getCategory` call. -/
inductive CategoryOutcome where
  | success (c : Category)
  | failure
  deriving DecidableEq, Repr

/-- Event trace of `fetchCategory` (lines 66-73): early return without
`categoryId`; otherwise the category request and, on resolution,
`setCategory(data)`. -/
def fetchCategoryTrace (categoryId : Option String)
    (outcome : CategoryOutcome) : List FetchEvent :=
  match categoryId with
  | none => []
  | some _ =>
    match outcome with
    | .success c => [.categoryRequest, .storeCategory c]
    | .failure => [.categoryRequest]

/-- One pagination button (lines 151-159): its 1-based label and whether it
carries the `active` class (`currentPage === index + 1`). -/
structure Button where
  label : ℕ
  active : Bool
  deriving DecidableEq, Repr

/-- The pagination control (lines 146-163): when `totalPages > 1`,
`Array.from({length: totalPages}, (_, index) => ...)` renders one button per
index with label `index + 1`; otherwise nothing is rendered. -/
def paginationButtons (totalPages currentPage : ℕ) : List Button :=
  if totalPages > 1 then
    (List.range totalPages).map
      (fun index => { label := index + 1, active := currentPage == index + 1 })
  else []

/-- The title element (lines 91-96): the category-dependent prefix, the
explicit single-space separator, and the literal suffix. -/
def renderTitle (category : Option Category) : String :=
  (match category with
   | some c => c.name ++ " のカテゴリ"
   | none => "カテゴリ") ++ " " ++ "| iU 学友会"

/-- The description meta tag content (lines 97-102):
`category ? category.explanation : ''`. -/
def renderDescription (category : Option Category) : String :=
  match category with
  | some c => c.explanation
  | none => ""

/-- The keywords meta tag content (lines 103-106):
`` `学友会, ${category ? category.name : ''}` ``. -/
def renderKeywords (category : Option Category) : String :=
  "学友会, " ++
    (match category with
     | some c => c.name
     | none => "")

/-- The results block (lines 131-144): an empty `blogs` list renders
`<NoResults query={...}/>` with the category name (or the fallback
`このカテゴリ`); a non-empty list renders one `<BlogItem>` per post, keyed by
the post id. -/
inductive ResultsView where
  | noResults (query : String)
  | blogList (keys : List String)
  deriving DecidableEq, Repr

/-- Renders the results block from the `blogs` and `category` state. -/
def renderResults (blogs : List Blog) (category : Option Category) :
    ResultsView :=
  if blogs.length = 0 then
    .noResults
      (match category with
       | some c => c.name
       | none => "このカテゴリ")
  else
    .blogList (blogs.map (fun blog => blog.id))

/-- State transitions of the view: a posts-fetch completion writes `blogs`
and `totalPages` (lines 58-61), a category-fetch completion writes
`category` (line 72), and a pagination-button activation writes
`currentPage` (lines 84-86, 146-163).  A button with label `p` exists only
when `totalPages > 1` and `1 ≤ p ≤ totalPages`. -/
inductive Step : ListState → ListState → Prop where
  | fetchComplete (s : ListState) (contents : List Blog) (totalCount : ℕ) :
      Step s { s with blogs := contents,
                      totalPages := computeTotalPages totalCount }
  | categoryLoaded (s : ListState) (c : Category) :
      Step s { s with category := some c }
  | pageChange (s : ListState) (p : ℕ) (h1 : 1 < s.totalPages)
      (h2 : 1 ≤ p) (h3 : p ≤ s.totalPages) :
      Step s { s with currentPage := p }

/-- A state reachable from the initial state by view transitions. -/
def Reachable (s : ListState) : Prop :=
  Relation.ReflTransGen Step initialState s

/-- The transitions of a run in which every posts-fetch completion reports
the same total count `T` (a category whose content is stable while the user
browses). -/
inductive FixedStep (T : ℕ) : ListState → ListState → Prop where
  | fetchComplete (s : ListState) (contents : List Blog) :
      FixedStep T s { s with blogs := contents,
                             totalPages := computeTotalPages T }
  | categoryLoaded (s : ListState) (c : Category) :
      FixedStep T s { s with category := some c }
  | pageChange (s : ListState) (p : ℕ) (h1 : 1 < s.totalPages)
      (h2 : 1 ≤ p) (h3 : p ≤ s.totalPages) :
      FixedStep T s { s with currentPage := p }

/-- Reachability when all posts-fetch completions report total count `T`. -/
def FixedReachable (T : ℕ) (s : ListState) : Prop :=
  Relation.ReflTransGen (FixedStep T) initialState s

end CategoryListView

namespace SiteHeaderView

/-- The hamburger handler `toggleMenu` (BlogHeader lines 255-257):
`setMenuOpen((prevState) => !prevState)`. -/
def toggleMenu (prevState : Bool) : Bool :=
  !prevState

/-- The observable effect of one `handleSearch` invocation: whether the
default form navigation was prevented, and the list of navigations pushed. -/
structure SearchEffect where
  defaultPrevented : Bool
  navigations : List String
  deriving DecidableEq, Repr

/-- The trim applied to the query before the truthiness test,
`searchQuery.trim()`: leading and trailing whitespace removed. -/
def trim (s : String) : String :=
  String.mk
    (((s.data.dropWhile Char.isWhitespace).reverse.dropWhile
        Char.isWhitespace).reverse)

/-- The submit handler `handleSearch` (BlogHeader lines 267-276):
`e.preventDefault()` unconditionally, then `router.push` of the raw query
interpolated into the search path — but only when `searchQuery.trim()` is
truthy, i.e. the trimmed text is non-empty. -/
def handleSearch (searchQuery : String) : SearchEffect :=
  { defaultPrevented := true,
    navigations :=
      if trim searchQuery ≠ "" then
        ["/blog/search?query=" ++ searchQuery]
      else [] }

end SiteHeaderView

namespace CategoryListView

/-- The source's rounded-up floating-point division agrees with natural
ceiling division: `Math.ceil(n / 10)` is `(n + 9) / 10` in `ℕ`. -/
theorem computeTotalPages_eq (n : ℕ) :
    computeTotalPages n = (n + 9) / 10 := by
  have h := Nat.div_add_mod (n + 9) 10
  have hm : (n + 9) % 10 < 10 := Nat.mod_lt _ (by norm_num)
  have h1 : 10 * ((n + 9) / 10) ≤ n + 9 := by omega
  have h2 : n ≤ 10 * ((n + 9) / 10) := by omega
  have h10 : ((10 : ℕ) : ℚ) = 10 := by norm_num
  have hq1 : ((10 * ((n + 9) / 10) : ℕ) : ℚ) ≤ ((n + 9 : ℕ) : ℚ) :=
    Nat.cast_le.mpr h1
  have hq2 : ((n : ℕ) : ℚ) ≤ ((10 * ((n + 9) / 10) : ℕ) : ℚ) :=
    Nat.cast_le.mpr h2
  rw [Nat.cast_mul, h10] at hq1 hq2
  have hceil : ⌈(n : ℚ) / ((10 : ℕ) : ℚ)⌉ = (((n + 9) / 10 : ℕ) : ℤ) := by
    rw [Int.ceil_eq_iff]
    rw [Int.cast_natCast, h10]
    constructor
    · rw [lt_div_iff₀ (by norm_num : (0 : ℚ) < 10)]
      have hc : ((n + 9 : ℕ) : ℚ) = (n : ℚ) + 9 := by push_cast; ring
      rw [hc] at hq1
      linarith
    · rw [div_le_iff₀ (by norm_num : (0 : ℚ) < 10)]
      linarith
  unfold computeTotalPages blogsPerPage
  rw [hceil, Int.toNat_natCast]

/-- The labels of the rendered pagination buttons are exactly `1..totalPages`
when more than one page exists, and nothing is rendered otherwise. -/
theorem paginationButtons_labels (totalPages currentPage : ℕ) :
    (paginationButtons totalPages currentPage).map Button.label
      = if 1 < totalPages then List.range' 1 totalPages else [] := by
  by_cases h : 1 < totalPages
  · simp only [paginationButtons, h, if_pos, gt_iff_lt, if_true, List.map_map]
    simp [List.range'_eq_map_range, Function.comp]
    exact fun a _ => Nat.add_comm a 1
  · simp [paginationButtons, h]

/-- C1: the stored total page count is the ceiling of the returned total
count over the fixed page size 10 — both as the pure computation and as the
value stored by the fetch trace — and the pagination control renders exactly
`totalPages` buttons labelled `1..totalPages` when `totalPages > 1`, and
zero buttons when `totalPages ≤ 1`. -/
theorem c1_totalPages_pagination (cid : String)
    (page totalCount currentPage : ℕ) (contents : List Blog) :
    computeTotalPages totalCount = (totalCount + 9) / 10
  ∧ FetchEvent.storeTotal ((totalCount + 9) / 10)
      ∈ fetchBlogsTrace (some cid) page (FetchOutcome.success contents totalCount)
  ∧ (paginationButtons (computeTotalPages totalCount) currentPage).map Button.label
      = (if 1 < computeTotalPages totalCount then
           List.range' 1 (computeTotalPages totalCount) else [])
  ∧ (paginationButtons (computeTotalPages totalCount) currentPage).length
      = (if 1 < computeTotalPages totalCount then computeTotalPages totalCount
         else 0) := by
  refine ⟨computeTotalPages_eq totalCount, ?_, paginationButtons_labels _ _, ?_⟩
  · simp [fetchBlogsTrace, computeTotalPages_eq]
  · by_cases h : 1 < computeTotalPages totalCount <;>
      simp [paginationButtons, h]

/-- C2: in a fetch cycle with a category identifier present, loading-start
is the first event and the posts request the second, in both outcomes; on
success the stored items and recomputed page count strictly precede the
final loading-end event; on failure no loading-end is ever signaled. -/
theorem c2_loading_protocol (cid : String) (page : ℕ)
    (contents : List Blog) (totalCount : ℕ) :
    ((fetchBlogsTrace (some cid) page
        (FetchOutcome.success contents totalCount)).take 2
      = [FetchEvent.loadStart, FetchEvent.postsRequest page]
    ∧ (fetchBlogsTrace (some cid) page FetchOutcome.failure).take 2
      = [FetchEvent.loadStart, FetchEvent.postsRequest page])
  ∧ (fetchBlogsTrace (some cid) page
        (FetchOutcome.success contents totalCount)).getLast?
      = some FetchEvent.loadEnd
  ∧ FetchEvent.storeBlogs contents
      ∈ (fetchBlogsTrace (some cid) page
          (FetchOutcome.success contents totalCount)).dropLast
  ∧ FetchEvent.storeTotal (computeTotalPages totalCount)
      ∈ (fetchBlogsTrace (some cid) page
          (FetchOutcome.success contents totalCount)).dropLast
  ∧ FetchEvent.loadEnd ∉ fetchBlogsTrace (some cid) page FetchOutcome.failure := by
  refine ⟨⟨rfl, rfl⟩, rfl, ?_, ?_, ?_⟩ <;> simp [fetchBlogsTrace, List.dropLast]

/-- C3: when the category identifier is absent from the navigation location,
neither the posts request nor the category-metadata request is issued —
both fetch bodies return before any observable event. -/
theorem c3_no_categoryId_no_fetch (page : ℕ) (bout : FetchOutcome)
    (cout : CategoryOutcome) :
    fetchBlogsTrace none page bout = [] ∧ fetchCategoryTrace none cout = [] :=
  ⟨rfl, rfl⟩

/-- C4 counterexample: activating the button of the page that is already
current issues no new posts fetch.  In the state with `currentPage = 1` and
`totalPages = 2`, button `1` exists (`1 ∈ [1, 2]`, `totalPages > 1`), but
`setCurrentPage(1)` leaves every entry of the effect dependency array
unchanged, so the effect does not re-run and zero fetches are triggered —
not exactly one as the claim states. -/
theorem c4_counterexample :
    1 < ListState.totalPages ⟨[], none, 1, 2⟩
  ∧ 1 ≤ ListState.totalPages ⟨[], none, 1, 2⟩
  ∧ (handlePageChange 1 ⟨[], none, 1, 2⟩).currentPage = 1
  ∧ ¬ rerenderFetches (some "c1") ⟨[], none, 1, 2⟩
        (handlePageChange 1 ⟨[], none, 1, 2⟩) = [1] := by
  refine ⟨by decide, by decide, rfl, ?_⟩
  simp [rerenderFetches, handlePageChange, effectDeps]

/-- C4 (amended): activating page `p`'s button sets the current page to
exactly `p`; when `p` differs from the page already current this triggers
exactly one new posts fetch, for page `p`, while activating the button of
the already-current page leaves the state unchanged and triggers no new
fetch. -/
theorem c4_pageChange_fetch (cid : String) (s : ListState) (p : ℕ)
    (hne : p ≠ s.currentPage) :
    (handlePageChange p s).currentPage = p
  ∧ rerenderFetches (some cid) s (handlePageChange p s) = [p]
  ∧ handlePageChange s.currentPage s = s
  ∧ rerenderFetches (some cid) s (handlePageChange s.currentPage s) = [] := by
  refine ⟨rfl, ?_, rfl, ?_⟩
  · simp [rerenderFetches, handlePageChange, effectDeps, effectFetchRequests, hne]
  · simp [rerenderFetches, handlePageChange, effectDeps]

/-- C4 witness: changing from page 1 to page 2 in a two-page state issues
exactly the fetch for page 2, and re-selecting page 1 issues none. -/
theorem c4_pageChange_fetch_witness :
    (handlePageChange 2 (⟨[], none, 1, 2⟩ : ListState)).currentPage = 2
  ∧ rerenderFetches (some "c1") ⟨[], none, 1, 2⟩
      (handlePageChange 2 ⟨[], none, 1, 2⟩) = [2]
  ∧ handlePageChange 1 (⟨[], none, 1, 2⟩ : ListState) = ⟨[], none, 1, 2⟩
  ∧ rerenderFetches (some "c1") ⟨[], none, 1, 2⟩
      (handlePageChange 1 ⟨[], none, 1, 2⟩) = [] :=
  c4_pageChange_fetch "c1" ⟨[], none, 1, 2⟩ 2 (by decide)

/-- Invariant of runs whose posts-fetch completions all report total count
`T`: the current page is at least 1; the stored page count is either still
its initial 0 or the recomputed value; while no fetch has completed the
page is still 1; and a positive page count bounds the current page. -/
theorem fixedStep_invariant (T : ℕ) (s : ListState)
    (h : FixedReachable T s) :
    1 ≤ s.currentPage
  ∧ (s.totalPages = 0 ∨ s.totalPages = computeTotalPages T)
  ∧ (s.totalPages = 0 → s.currentPage = 1)
  ∧ (0 < s.totalPages → s.currentPage ≤ s.totalPages) := by
  induction h with
  | refl => exact ⟨le_refl 1, Or.inl rfl, fun _ => rfl, fun h0 => absurd h0 (by simp [initialState])⟩
  | @tail b c hab hbc ih =>
    obtain ⟨ih1, ih2, ih3, ih4⟩ := ih
    cases hbc with
    | fetchComplete contents =>
      refine ⟨ih1, Or.inr rfl, fun h0 => ?_, fun h0 => ?_⟩
      · have h0' : computeTotalPages T = 0 := h0
        rcases ih2 with hb | hb
        · exact ih3 hb
        · exact ih3 (by omega)
      · have h0' : 0 < computeTotalPages T := h0
        show b.currentPage ≤ computeTotalPages T
        rcases ih2 with hb | hb
        · have := ih3 hb
          omega
        · have := ih4 (by omega)
          omega
    | categoryLoaded c =>
      exact ⟨ih1, ih2, ih3, ih4⟩
    | pageChange p h1 h2 h3 =>
      refine ⟨h2, ih2, fun h0 => ?_, fun _ => h3⟩
      have h0' : b.totalPages = 0 := h0
      omega

/-- C5 counterexample: the bound `currentPage ≤ totalPages` does not hold in
every reachable state.  Starting from the initial state, a fetch completion
with total count 20 yields two pages; the user moves to page 2; a later
fetch completion reports total count 5, storing `totalPages = 1` while
`currentPage` remains 2 — reachable, `totalPages > 0`, yet
`currentPage > totalPages`. -/
theorem c5_counterexample :
    Reachable ⟨[], none, 2, 1⟩
  ∧ 0 < ListState.totalPages ⟨[], none, 2, 1⟩
  ∧ ListState.totalPages ⟨[], none, 2, 1⟩
      < ListState.currentPage ⟨[], none, 2, 1⟩ := by
  have e20 : computeTotalPages 20 = 2 := by rw [computeTotalPages_eq]
  have e5 : computeTotalPages 5 = 1 := by rw [computeTotalPages_eq]
  refine ⟨?_, by decide, by decide⟩
  have h1 : Step initialState ⟨[], none, 1, 2⟩ := by
    have hs := Step.fetchComplete initialState [] 20
    simpa [initialState, e20] using hs
  have h2 : Step (⟨[], none, 1, 2⟩ : ListState) ⟨[], none, 2, 2⟩ :=
    Step.pageChange ⟨[], none, 1, 2⟩ 2 (by decide) (by decide) (by decide)
  have h3 : Step (⟨[], none, 2, 2⟩ : ListState) ⟨[], none, 2, 1⟩ := by
    have hs := Step.fetchComplete (⟨[], none, 2, 2⟩ : ListState) [] 5
    simpa [e5] using hs
  exact Relation.ReflTransGen.tail
    (Relation.ReflTransGen.tail
      (Relation.ReflTransGen.tail Relation.ReflTransGen.refl h1) h2) h3

/-- In every reachable state of the view — with no restriction on what the
fetch completions report — the current page is at least 1: it starts at 1,
fetch and category completions leave it unchanged, and a pagination button
carries a label of at least 1. -/
theorem reachable_currentPage_pos (s : ListState) (h : Reachable s) :
    1 ≤ s.currentPage := by
  induction h with
  | refl => exact le_refl 1
  | @tail b c hab hbc ih =>
    cases hbc with
    | fetchComplete contents totalCount => exact ih
    | categoryLoaded cc => exact ih
    | pageChange p h1 h2 h3 => exact h2

/-- C5 (amended): in every reachable state the current page is at least 1;
and along any run in which all posts-fetch completions report one and the
same total count (a category whose content does not change while the user
browses), a positive stored page count always bounds the current page:
`currentPage ∈ [1, totalPages]` whenever `totalPages > 0`. -/
theorem c5_currentPage_invariant (T : ℕ) (s t : ListState)
    (hs : Reachable s) (ht : FixedReachable T t) :
    1 ≤ s.currentPage
  ∧ (0 < t.totalPages → 1 ≤ t.currentPage ∧ t.currentPage ≤ t.totalPages) := by
  obtain ⟨h1, _, _, h4⟩ := fixedStep_invariant T t ht
  exact ⟨reachable_currentPage_pos s hs, fun h0 => ⟨h1, h4 h0⟩⟩

/-- C8: the rendered document metadata — the title is the category name
suffixed with the fixed text when metadata is loaded and the generic title
otherwise; the description is the category's explanation text or empty; the
keywords are the fixed prefix followed by the category name or nothing. -/
theorem c8_document_metadata (c : Category) :
    renderTitle (some c) = c.name ++ " のカテゴリ | iU 学友会"
  ∧ renderTitle none = "カテゴリ | iU 学友会"
  ∧ renderDescription (some c) = c.explanation
  ∧ renderDescription none = ""
  ∧ renderKeywords (some c) = "学友会, " ++ c.name
  ∧ renderKeywords none = "学友会, " := by
  refine ⟨?_, rfl, rfl, rfl, rfl, rfl⟩
  simp [renderTitle, String.append_assoc]

/-- C9: an empty stored result set renders the no-results placeholder whose
query is the loaded category's display name, or the generic fallback when
no category metadata is loaded; a non-empty result set renders the blog
list with one entry (keyed by the post id) per stored post. -/
theorem c9_results_rendering (b : Blog) (bs : List Blog)
    (cat : Option Category) (c : Category) :
    renderResults [] (some c) = ResultsView.noResults c.name
  ∧ renderResults [] none = ResultsView.noResults "このカテゴリ"
  ∧ renderResults (b :: bs) cat
      = ResultsView.blogList ((b :: bs).map (fun blog => blog.id))
  ∧ ((b :: bs).map (fun blog => blog.id)).length = (b :: bs).length := by
  refine ⟨rfl, rfl, ?_, by simp⟩
  simp [renderResults]

/-- C5 witness: the initial state has current page at least 1, and after
one completed fetch reporting 20 posts the state has two pages and its
current page 1 lies within `[1, 2]`. -/
theorem c5_currentPage_invariant_witness :
    1 ≤ ListState.currentPage initialState
  ∧ (0 < ListState.totalPages ⟨[], none, 1, 2⟩ →
      1 ≤ ListState.currentPage ⟨[], none, 1, 2⟩
      ∧ ListState.currentPage ⟨[], none, 1, 2⟩
          ≤ ListState.totalPages ⟨[], none, 1, 2⟩) :=
  c5_currentPage_invariant 20 initialState ⟨[], none, 1, 2⟩
    Relation.ReflTransGen.refl
    (Relation.ReflTransGen.tail Relation.ReflTransGen.refl
      (by
        have e20 : computeTotalPages 20 = 2 := by rw [computeTotalPages_eq]
        have hs : FixedStep 20 initialState
            { initialState with blogs := ([] : List Blog),
                                totalPages := computeTotalPages 20 } :=
          FixedStep.fetchComplete initialState []
        simpa [initialState, e20] using hs))

end CategoryListView

namespace SiteHeaderView

/-- C6: submitting the search form with an empty or whitespace-only input
prevents the default form navigation and performs no navigation at all —
the submission is silently ignored. -/
theorem c6_empty_search_ignored (q : String) (h : trim q = "") :
    handleSearch q = { defaultPrevented := true, navigations := [] } := by
  simp [handleSearch, h]

/-- C6 witness: the whitespace-only input of two spaces trims to empty and
produces a prevented submission with no navigation. -/
theorem c6_empty_search_ignored_witness :
    trim "  " = ""
  ∧ handleSearch "  " = { defaultPrevented := true, navigations := [] } :=
  ⟨by decide, c6_empty_search_ignored "  " (by decide)⟩

/-- C7: submitting the search form with an input whose trimmed value is
non-empty prevents the default navigation and pushes exactly one
navigation, to the search path with the raw stored text appended — neither
trimmed nor URL-encoded. -/
theorem c7_search_navigation (q : String) (h : trim q ≠ "") :
    (handleSearch q).navigations = ["/blog/search?query=" ++ q]
  ∧ (handleSearch q).navigations.length = 1
  ∧ (handleSearch q).defaultPrevented = true := by
  simp [handleSearch, h]

/-- C7 witness: the input `music` navigates exactly once, to
`/blog/search?query=music`. -/
theorem c7_search_navigation_witness :
    trim "music" ≠ ""
  ∧ ((handleSearch "music").navigations = ["/blog/search?query=music"]
     ∧ (handleSearch "music").navigations.length = 1
     ∧ (handleSearch "music").defaultPrevented = true) :=
  ⟨by decide, c7_search_navigation "music" (by decide)⟩

/-- C10: the hamburger handler is a pure boolean negation of the menu-open
flag — activating it twice restores any starting state, and activating it
while the menu is open closes the menu. -/
theorem c10_toggleMenu_involution (menuOpen : Bool) :
    toggleMenu (toggleMenu menuOpen) = menuOpen
  ∧ toggleMenu true = false := by
  cases menuOpen <;> simp [toggleMenu]

end SiteHeaderView
